import Mathlib

/-!
Verification of the medhack repository's inference decision logic.

The embedding follows `src/pneumonia-api/main.py` (severity thresholds,
recommendation lists, result assembly, image preprocessing, the /predict
and /health handlers) and `src/predict.py` (the standalone CLI predictor).
Probabilities are modelled as rationals, Python `None`-or-string values as
`Option String`, exceptions as `Except String`, and HTTP error responses
as an explicit constructor carrying status code and detail message.
-/

namespace PneumoniaApi

/-- `get_severity` from main.py: the three exclusive lower-bound thresholds,
evaluated top to bottom, first match wins; below 0.5 returns Python `None`. -/
def get_severity (confidence : ℚ) : Option String :=
  if confidence > 9/10 then some "Severe"
  else if confidence > 8/10 then some "Moderate"
  else if confidence > 1/2 then some "Mild"
  else none

/-- The fixed 3-item base list built inside `get_recommendations` when
confidence > 0.5. -/
def base_recommendations : List String :=
  ["Consult with a healthcare provider",
   "Monitor breathing and oxygen levels",
   "Rest and maintain good hydration"]

/-- `get_recommendations` from main.py: branches on `confidence > 0.5`
first; inside that branch compares the `severity` argument against
"Severe" and "Moderate", with a final default (Mild / anything else). -/
def get_recommendations (confidence : ℚ) (severity : Option String) : List String :=
  if confidence > 1/2 then
    if severity = some "Severe" then
      ["⚠️ SEEK IMMEDIATE EMERGENCY CARE",
       "High risk - immediate medical attention required",
       "Prepare for possible hospitalization",
       "Monitor oxygen saturation closely"] ++ base_recommendations
    else if severity = some "Moderate" then
      ["Seek urgent medical attention",
       "Begin prescribed treatments promptly",
       "Schedule follow-up chest X-rays"] ++ base_recommendations
    else
      ["Schedule medical evaluation"] ++ base_recommendations ++
      ["Follow up with chest X-rays as advised",
       "Complete prescribed medications if given"]
  else
    ["Continue normal health monitoring",
     "Maintain good respiratory hygiene",
     "Stay current with vaccinations",
     "Follow up if new symptoms develop"]

/-- The `details` record of the /predict response body. -/
structure PredictionDetails where
  lungOpacity : String
  infiltrates : String
  consolidation : String
  severity : Option String
  deriving Repr, DecidableEq

/-- The /predict response body built in the handler. -/
structure PredictionResult where
  prediction : String
  confidence : ℚ
  pneumoniaProbability : ℚ
  details : PredictionDetails
  recommendations : List String
  deriving Repr, DecidableEq

/-- Python's `f"{x:.1f}"` for a nonnegative rational: the value rounded to
one decimal digit, rendered as integer part, dot, tenths digit. -/
def format_one_decimal (q : ℚ) : String :=
  let n : ℤ := round (q * 10)
  toString (n / 10) ++ "." ++ toString (n % 10).natAbs

/-- The `result` dictionary built in the /predict handler (main.py lines
140 to 155) as a function of the scalar model output. -/
def assemble_result (pneumonia_probability : ℚ) : PredictionResult :=
  let is_pneumonia := pneumonia_probability > 1/2
  let severity := get_severity pneumonia_probability
  { prediction := if is_pneumonia then "Pneumonia" else "Normal"
    confidence := pneumonia_probability
    pneumoniaProbability := pneumonia_probability
    details :=
      { lungOpacity :=
          (if is_pneumonia then "Increased" else "Normal") ++
          " opacity detected in lung fields (" ++
          format_one_decimal (pneumonia_probability * 100) ++ "% confidence)"
        infiltrates :=
          if is_pneumonia then "Likely presence of infiltrates"
          else "No significant infiltrates detected"
        consolidation :=
          if is_pneumonia then "Potential areas of consolidation observed"
          else "No consolidation observed"
        severity := severity }
    recommendations := get_recommendations pneumonia_probability severity }

/-! ## Image preprocessing (`preprocess_image` in main.py)

The data-URL stripping (`image_data.split('base64,')[1]`) and the base64
decoding (`base64.b64decode`) are embedded executably over character
lists.  The raster decoder (`PIL.Image.open`) is external library code; it
is modelled as a parameter returning a `PILImage` (width, height, mode and
a pixel function with byte-valued channels), and the theorems assume only
that every image it successfully decodes is well formed in that sense.
`image.convert('RGB')` and `image.resize` are modelled from PIL's
documented behaviour: conversion yields three byte-valued channels per
pixel, resizing samples source pixels. -/

/-- A decoded raster image: PIL's width, height, color mode, and the pixel
accessor giving the list of channel values at column x, row y. -/
structure PILImage where
  width : Nat
  height : Nat
  mode : String
  px : Nat → Nat → List Nat

/-- A valid decodable image: every channel value is a byte, and a
3-channel mode image really has 3 channels per pixel. -/
def PILImage.wf (img : PILImage) : Prop :=
  (∀ x y, ∀ v ∈ img.px x y, v ≤ 255) ∧
  (img.mode = "RGB" → ∀ x y, (img.px x y).length = 3)

/-- Does `pattern` occur at the head of `cs`? -/
def starts_with_chars : List Char → List Char → Bool
  | [], _ => true
  | _ :: _, [] => false
  | p :: ps, c :: cs => p == c && starts_with_chars ps cs

/-- The suffix following the first occurrence of `sep`, or `none` when
`sep` does not occur. -/
def drop_through (sep : List Char) : List Char → Option (List Char)
  | [] => none
  | c :: cs =>
    if starts_with_chars sep (c :: cs) then some ((c :: cs).drop sep.length)
    else drop_through sep cs

/-- The prefix of `cs` before the first occurrence of `sep` (all of `cs`
when `sep` does not occur). -/
def take_until (sep : List Char) : List Char → List Char
  | [] => []
  | c :: cs =>
    if starts_with_chars sep (c :: cs) then [] else c :: take_until sep cs

/-- The handler's data-URL stripping: Python's
`image_data.split('base64,')[1]` when `'base64,' in image_data`, i.e. the
text between the first and second occurrence of "base64,", else the input
unchanged. -/
def strip_data_url (image_data : String) : String :=
  let sep := "base64,".toList
  match drop_through sep image_data.toList with
  | none => image_data
  | some rest => String.mk (take_until sep rest)

/-- The standard base64 alphabet, index = 6-bit value. -/
def B64_ALPHABET : List Char :=
  "ABCDEFGHIJKLMNOPQRSTUVWXYZabcdefghijklmnopqrstuvwxyz0123456789+/".toList

/-- The 6-bit value of a base64 alphabet character. -/
def b64_index (c : Char) : Option Nat :=
  B64_ALPHABET.findIdx? (fun a => a == c)

/-- Decode a run of 6-bit values, four at a time, into bytes; a trailing
group of two or three values (from `=` padding) yields one or two bytes; a
single leftover value is invalid. -/
def b64_quartets : List Nat → Except String (List Nat)
  | [] => Except.ok []
  | [a, b] => Except.ok [a * 4 + b / 16]
  | [a, b, c] => Except.ok [a * 4 + b / 16, b % 16 * 16 + c / 4]
  | a :: b :: c :: d :: rest => do
    let tail ← b64_quartets rest
    Except.ok ([a * 4 + b / 16, b % 16 * 16 + c / 4, c % 4 * 64 + d] ++ tail)
  | [_] => Except.error "Invalid base64-encoded string"

/-- `base64.b64decode` as the handler uses it: characters outside the
alphabet are discarded, `=` only terminates the data, and the kept length
must be a multiple of four with at most two padding characters. -/
def base64_decode (s : String) : Except String (List Nat) :=
  let kept := s.toList.filter (fun c => (b64_index c).isSome || c == '=')
  let body := kept.takeWhile (fun c => c != '=')
  let pad := kept.length - body.length
  if (kept.drop body.length).all (fun c => c == '=') ∧ pad ≤ 2 ∧ kept.length % 4 = 0 then
    match body.mapM b64_index with
    | some vals => b64_quartets vals
    | none => Except.error "Invalid base64-encoded string"
  else Except.error "Invalid base64-encoded string"

/-- A pixel's channels after `image.convert('RGB')`, from PIL's documented
behaviour: grayscale (with or without alpha) replicates the single band,
anything with three or more bands keeps the first three. -/
def toRGBpx : List Nat → List Nat
  | [] => [0, 0, 0]
  | [g] => [g, g, g]
  | [g, _] => [g, g, g]
  | r :: g :: b :: _ => [r, g, b]

/-- `image.convert('RGB')`: same size, mode "RGB", three channels. -/
def convert_to_rgb (img : PILImage) : PILImage :=
  { width := img.width, height := img.height, mode := "RGB",
    px := fun x y => toRGBpx (img.px x y) }

/-- `image.resize((w, h))` modelled with point sampling: the output pixel
at (x, y) is a source pixel, so channel counts and value bounds carry
over whatever resampling filter PIL applies. -/
def PILImage.resize (img : PILImage) (w h : Nat) : PILImage :=
  { width := w, height := h, mode := img.mode,
    px := fun x y => img.px (x * img.width / w) (y * img.height / h) }

/-- `np.array(image) / 255.0`: rows of pixels of rational channel values. -/
def to_array (img : PILImage) : List (List (List ℚ)) :=
  (List.range img.height).map fun y =>
    (List.range img.width).map fun x =>
      (img.px x y).map fun (v : ℕ) => (v : ℚ) / 255

/-- `np.expand_dims(arr, axis=0)`. -/
def expand_dims (a : List (List (List ℚ))) : List (List (List (List ℚ))) := [a]

/-- `preprocess_image` from main.py: strip a "base64,"-delimited prefix if
present, base64-decode, decode the raster image (`image_open`), convert to
RGB if the mode differs, resize to 224×224, divide by 255, prepend the
batch dimension; a failing step propagates its exception. -/
def preprocess_image (image_open : List Nat → Except String PILImage)
    (image_data : String) : Except String (List (List (List (List ℚ)))) :=
  match base64_decode (strip_data_url image_data) with
  | Except.error e => Except.error e
  | Except.ok bytes =>
    match image_open bytes with
    | Except.error e => Except.error e
    | Except.ok image =>
      let image := if image.mode ≠ "RGB" then convert_to_rgb image else image
      let image := image.resize 224 224
      Except.ok (expand_dims (to_array image))

/-- The batch of one 224×224 image of 3-channel pixels. -/
def tensor_shape_ok (t : List (List (List (List ℚ)))) : Prop :=
  t.length = 1 ∧ ∀ b ∈ t, b.length = 224 ∧
    ∀ r ∈ b, r.length = 224 ∧ ∀ p ∈ r, p.length = 3

/-- Every channel value of the batch lies in [0, 1]. -/
def tensor_unit_interval (t : List (List (List (List ℚ)))) : Prop :=
  ∀ b ∈ t, ∀ r ∈ b, ∀ p ∈ r, ∀ v ∈ p, 0 ≤ v ∧ v ≤ 1

/-! ## The /predict and /health handlers

The Keras model object is opaque library state: it is modelled as its
`predict` method, a function from the input batch to a 2-D output array
(or an error for any exception raised during the forward pass).  The
handler's environment bundles what the outside world determines: whether
the weights file exists on disk, the model it would load, and the raster
decoder. -/

/-- The loaded model: `model.predict` on the preprocessed batch, returning
the output array or failing like any exception in the forward pass. -/
structure Model where
  infer : List (List (List (List ℚ))) → Except String (List (List ℚ))

/-- What the process environment fixes for a request: presence of
`pneumonia_detection_model.h5`, the model a successful load yields, and
the raster decoder backing `Image.open`. -/
structure Env where
  fileExists : Bool
  diskModel : Model
  image_open : List Nat → Except String PILImage

/-- `load_model` from main.py: load from the well-known path when the file
exists, else raise `FileNotFoundError`. -/
def load_model (env : Env) : Except String Model :=
  if env.fileExists then Except.ok env.diskModel
  else Except.error "Model file not found at pneumonia_detection_model.h5"

/-- `float(prediction[0][0])`: the scalar at row 0, column 0 of the model
output, an IndexError (caught by the handler) when absent. -/
def output_scalar (a : List (List ℚ)) : Except String ℚ :=
  match a with
  | (p :: _) :: _ => Except.ok p
  | _ => Except.error "index 0 is out of bounds"

/-- An HTTP outcome of the /predict handler: a 200 with the result body,
or an HTTPException carrying a status code and a detail message. -/
inductive HttpResponse where
  | ok (result : PredictionResult)
  | error (status : Nat) (detail : String)

/-- The try-block of the /predict handler: preprocess, run the model, take
the scalar, assemble the response; any raised error becomes HTTP 500 with
the exception text. -/
def predict_body (env : Env) (m : Model) (image : String) : HttpResponse :=
  match (do
      let processed_image ← preprocess_image env.image_open image
      let prediction ← m.infer processed_image
      let pneumonia_probability ← output_scalar prediction
      Except.ok (assemble_result pneumonia_probability) :
    Except String PredictionResult) with
  | Except.ok r => HttpResponse.ok r
  | Except.error e => HttpResponse.error 500 e

/-- The /predict handler: when the global model is unset, attempt one lazy
load (failure is HTTP 500 "Model not loaded: ..."), then run the guarded
prediction body.  Returns the response and the global model afterwards. -/
def predict (env : Env) (model : Option Model) (image : String) :
    HttpResponse × Option Model :=
  match model with
  | none =>
    match load_model env with
    | Except.error e => (HttpResponse.error 500 ("Model not loaded: " ++ e), none)
    | Except.ok m => (predict_body env m image, some m)
  | some m => (predict_body env m image, some m)

/-- The /health response body. -/
structure HealthResponse where
  status : String
  model_loaded : Bool
  deriving Repr, DecidableEq

/-- `health_check` from main.py. -/
def health_check (model : Option Model) : HealthResponse :=
  { status := "healthy", model_loaded := model.isSome }

end PneumoniaApi

namespace PredictCli

/-! ## The standalone CLI predictor (`src/predict.py`)

The module body is one try/except: load the pickled model, load the JSON
input, reshape to one row, call `predict_proba`, take `[0][1]`, print the
success JSON and exit 0; any exception prints an error JSON and exits 1.
The pickled model and the two file reads are external inputs, modelled as
`Except`-valued fields of the environment; stdout is modelled as the
structured value the printed JSON serialises. -/

/-- The unpickled classical model: its `predict_proba` method on a 2-D
input, returning the per-class probability table or raising. -/
structure CliModel where
  predict_proba : List (List ℚ) → Except String (List (List ℚ))

/-- What the filesystem provides: the result of unpickling
`ensemble_model.pkl` and of reading `temp_input.json`. -/
structure CliEnv where
  load_model : Except String CliModel
  load_input : Except String (List ℚ)

/-- `np.array(input_data).reshape(1, -1)`: one row holding the input. -/
def reshape_row (input_data : List ℚ) : List (List ℚ) := [input_data]

/-- `model.predict_proba(input_array)[0][1]`: the class-1 probability of
the single row; an IndexError (caught by the script) when absent. -/
def proba_index (a : List (List ℚ)) : Except String ℚ :=
  match a with
  | (_ :: p :: _) :: _ => Except.ok p
  | [] :: _ => Except.error "index 1 is out of bounds"
  | [_] :: _ => Except.error "index 1 is out of bounds"
  | [] => Except.error "index 0 is out of bounds"

/-- What the script prints: the success JSON object with `probability` and
`prediction`, or the error JSON object with the exception text. -/
inductive CliOutput where
  | success (probability : ℚ) (prediction : Bool)
  | failure (error : String)

/-- The try-block of predict.py: load model, load input, reshape, score,
index, build the result; the first raised exception aborts the block. -/
def cli_run (env : CliEnv) : Except String (ℚ × Bool) :=
  match env.load_model with
  | Except.error e => Except.error e
  | Except.ok model =>
    match env.load_input with
    | Except.error e => Except.error e
    | Except.ok input_data =>
      match model.predict_proba (reshape_row input_data) with
      | Except.error e => Except.error e
      | Except.ok probs =>
        match proba_index probs with
        | Except.error e => Except.error e
        | Except.ok probability =>
          Except.ok (probability, if probability > 1/2 then true else false)

/-- The whole module body: printed JSON and process exit code. -/
def cli_main (env : CliEnv) : CliOutput × Nat :=
  match cli_run env with
  | Except.ok (p, b) => (CliOutput.success p b, 0)
  | Except.error e => (CliOutput.failure e, 1)

end PredictCli

/-! ## Theorems -/

open PneumoniaApi

/-- The rank of a severity label in the tier order
None < Mild < Moderate < Severe. -/
def severity_rank : Option String → Nat
  | none => 0
  | some s =>
    if s = "Mild" then 1 else if s = "Moderate" then 2
    else if s = "Severe" then 3 else 4

lemma gs_severe (p : ℚ) : get_severity p = some "Severe" ↔ 9/10 < p := by
  unfold get_severity
  split_ifs with h1 h2 h3 <;> simp <;> first | exact h1 | linarith

lemma gs_moderate (p : ℚ) :
    get_severity p = some "Moderate" ↔ 8/10 < p ∧ p ≤ 9/10 := by
  unfold get_severity
  split_ifs with h1 h2 h3 <;> simp <;>
    first
      | (exact ⟨h2, by linarith⟩)
      | (rintro ⟨a, b⟩; linarith)
      | (intro a; linarith)
      | (constructor <;> linarith)

lemma gs_mild (p : ℚ) : get_severity p = some "Mild" ↔ 1/2 < p ∧ p ≤ 8/10 := by
  unfold get_severity
  split_ifs with h1 h2 h3 <;> simp <;>
    first
      | (exact ⟨h3, by linarith⟩)
      | (rintro ⟨a, b⟩; linarith)
      | (intro a; linarith)
      | (constructor <;> linarith)

lemma gs_none (p : ℚ) : get_severity p = none ↔ p ≤ 1/2 := by
  unfold get_severity
  split_ifs with h1 h2 h3 <;> simp <;> linarith

/-- C1: the severity classifier returns "Severe" if p > 0.9, else
"Moderate" if p > 0.8, else "Mild" if p > 0.5, else None, with the
thresholds as exclusive lower bounds evaluated in that order, first match
winning — equivalently, each label characterises exactly the half-open
band its guard and the failed earlier guards carve out. -/
theorem C1_severity_thresholds (p : ℚ) :
    (get_severity p = some "Severe" ↔ 9/10 < p) ∧
    (get_severity p = some "Moderate" ↔ 8/10 < p ∧ p ≤ 9/10) ∧
    (get_severity p = some "Mild" ↔ 1/2 < p ∧ p ≤ 8/10) ∧
    (get_severity p = none ↔ p ≤ 1/2) :=
  ⟨gs_severe p, gs_moderate p, gs_mild p, gs_none p⟩

/-- C2: for p in [0,1] the assembled PredictionResult has prediction
"Pneumonia" exactly when p > 0.5 (so p = 0.5 yields "Normal"), and the
same strict threshold selects the infiltrates and consolidation detail
strings. -/
theorem C2_prediction_threshold (p : ℚ) (h0 : 0 ≤ p) (h1 : p ≤ 1) :
    ((assemble_result p).prediction = "Pneumonia" ↔ 1/2 < p) ∧
    ((assemble_result p).prediction = "Normal" ↔ p ≤ 1/2) ∧
    ((assemble_result p).details.infiltrates =
        "Likely presence of infiltrates" ↔ 1/2 < p) ∧
    ((assemble_result p).details.infiltrates =
        "No significant infiltrates detected" ↔ p ≤ 1/2) ∧
    ((assemble_result p).details.consolidation =
        "Potential areas of consolidation observed" ↔ 1/2 < p) ∧
    ((assemble_result p).details.consolidation =
        "No consolidation observed" ↔ p ≤ 1/2) := by
  have hpred : (assemble_result p).prediction =
      if 1/2 < p then "Pneumonia" else "Normal" := rfl
  have hinf : (assemble_result p).details.infiltrates =
      if 1/2 < p then "Likely presence of infiltrates"
      else "No significant infiltrates detected" := rfl
  have hcon : (assemble_result p).details.consolidation =
      if 1/2 < p then "Potential areas of consolidation observed"
      else "No consolidation observed" := rfl
  rw [hpred, hinf, hcon]
  by_cases hp : 1/2 < p
  · have hple : ¬ p ≤ 1/2 := not_le.mpr hp
    simp only [if_pos hp]
    refine ⟨?_, ?_, ?_, ?_, ?_, ?_⟩ <;> constructor <;> intro hh <;>
      first
        | trivial
        | exact hp
        | (exact absurd hh (by decide))
        | (exact absurd hh hple)
  · have hple : p ≤ 1/2 := not_lt.mp hp
    simp only [if_neg hp]
    refine ⟨?_, ?_, ?_, ?_, ?_, ?_⟩ <;> constructor <;> intro hh <;>
      first
        | trivial
        | exact hple
        | (exact absurd hh (by decide))
        | (exact absurd hh hp)

/-- C2 witness: at the boundary probability 0.5 the result is "Normal"
with the negative detail strings. -/
theorem C2_prediction_threshold_witness :
    ((assemble_result (1/2)).prediction = "Pneumonia" ↔ (1/2 : ℚ) < 1/2) ∧
    ((assemble_result (1/2)).prediction = "Normal" ↔ (1/2 : ℚ) ≤ 1/2) ∧
    ((assemble_result (1/2)).details.infiltrates =
        "Likely presence of infiltrates" ↔ (1/2 : ℚ) < 1/2) ∧
    ((assemble_result (1/2)).details.infiltrates =
        "No significant infiltrates detected" ↔ (1/2 : ℚ) ≤ 1/2) ∧
    ((assemble_result (1/2)).details.consolidation =
        "Potential areas of consolidation observed" ↔ (1/2 : ℚ) < 1/2) ∧
    ((assemble_result (1/2)).details.consolidation =
        "No consolidation observed" ↔ (1/2 : ℚ) ≤ 1/2) :=
  C2_prediction_threshold (1/2) (by norm_num) (by norm_num)

/-- C3: with severity derived from the probability, the recommendation
generator returns the fixed 4-item normal-monitoring list when p ≤ 0.5;
the 4 urgent-care strings then the 3-item base list (7 items, emergency
string first) when p > 0.9; 3 urgent strings then the base list (6 items)
when 0.8 < p ≤ 0.9; and the schedule-evaluation string, the base list and
2 trailing follow-up strings (6 items) when 0.5 < p ≤ 0.8. -/
theorem C3_recommendation_tiers (p : ℚ) :
    (p ≤ 1/2 → get_recommendations p (get_severity p) =
      ["Continue normal health monitoring",
       "Maintain good respiratory hygiene",
       "Stay current with vaccinations",
       "Follow up if new symptoms develop"]) ∧
    (9/10 < p → get_recommendations p (get_severity p) =
      ["⚠️ SEEK IMMEDIATE EMERGENCY CARE",
       "High risk - immediate medical attention required",
       "Prepare for possible hospitalization",
       "Monitor oxygen saturation closely",
       "Consult with a healthcare provider",
       "Monitor breathing and oxygen levels",
       "Rest and maintain good hydration"] ∧
      (get_recommendations p (get_severity p)).length = 7 ∧
      (get_recommendations p (get_severity p)).head? =
        some "⚠️ SEEK IMMEDIATE EMERGENCY CARE") ∧
    (8/10 < p → p ≤ 9/10 → get_recommendations p (get_severity p) =
      ["Seek urgent medical attention",
       "Begin prescribed treatments promptly",
       "Schedule follow-up chest X-rays",
       "Consult with a healthcare provider",
       "Monitor breathing and oxygen levels",
       "Rest and maintain good hydration"] ∧
      (get_recommendations p (get_severity p)).length = 6) ∧
    (1/2 < p → p ≤ 8/10 → get_recommendations p (get_severity p) =
      ["Schedule medical evaluation",
       "Consult with a healthcare provider",
       "Monitor breathing and oxygen levels",
       "Rest and maintain good hydration",
       "Follow up with chest X-rays as advised",
       "Complete prescribed medications if given"] ∧
      (get_recommendations p (get_severity p)).length = 6) := by
  refine ⟨fun h => ?_, fun h => ?_, fun h h2 => ?_, fun h h2 => ?_⟩
  · unfold get_recommendations
    rw [if_neg (not_lt.mpr h)]
  · have hs : get_severity p = some "Severe" := (gs_severe p).mpr h
    have hc : 1/2 < p := by linarith
    have hr : get_recommendations p (get_severity p) =
        ["⚠️ SEEK IMMEDIATE EMERGENCY CARE",
         "High risk - immediate medical attention required",
         "Prepare for possible hospitalization",
         "Monitor oxygen saturation closely",
         "Consult with a healthcare provider",
         "Monitor breathing and oxygen levels",
         "Rest and maintain good hydration"] := by
      rw [hs]; unfold get_recommendations
      rw [if_pos hc, if_pos rfl]; rfl
    exact ⟨hr, by rw [hr]; rfl, by rw [hr]; rfl⟩
  · have hs : get_severity p = some "Moderate" := (gs_moderate p).mpr ⟨h, h2⟩
    have hc : 1/2 < p := by linarith
    have hr : get_recommendations p (get_severity p) =
        ["Seek urgent medical attention",
         "Begin prescribed treatments promptly",
         "Schedule follow-up chest X-rays",
         "Consult with a healthcare provider",
         "Monitor breathing and oxygen levels",
         "Rest and maintain good hydration"] := by
      rw [hs]; unfold get_recommendations
      rw [if_pos hc, if_neg (by decide), if_pos rfl]; rfl
    exact ⟨hr, by rw [hr]; rfl⟩
  · have hs : get_severity p = some "Mild" := (gs_mild p).mpr ⟨h, h2⟩
    have hr : get_recommendations p (get_severity p) =
        ["Schedule medical evaluation",
         "Consult with a healthcare provider",
         "Monitor breathing and oxygen levels",
         "Rest and maintain good hydration",
         "Follow up with chest X-rays as advised",
         "Complete prescribed medications if given"] := by
      rw [hs]; unfold get_recommendations
      rw [if_pos h, if_neg (by decide), if_neg (by decide)]; rfl
    exact ⟨hr, by rw [hr]; rfl⟩

/-- C5: the severity classifier and the recommendation generator are
pure, deterministic, total functions of the probability alone: two
invocations at the same probability give identical outputs, and the
assembled response's severity and recommendations fields are exactly
those functions of the response's probability. -/
theorem C5_pure_deterministic (p1 p2 : ℚ) (h : p1 = p2) :
    get_severity p1 = get_severity p2 ∧
    get_recommendations p1 (get_severity p1) =
      get_recommendations p2 (get_severity p2) ∧
    (assemble_result p1).details.severity = get_severity p1 ∧
    (assemble_result p1).recommendations =
      get_recommendations p1 (get_severity p1) := by
  subst h; exact ⟨rfl, rfl, rfl, rfl⟩

/-- C5 witness: the purity theorem instantiated at probability 0.7. -/
theorem C5_pure_deterministic_witness :
    get_severity (7/10) = get_severity (7/10) ∧
    get_recommendations (7/10) (get_severity (7/10)) =
      get_recommendations (7/10) (get_severity (7/10)) ∧
    (assemble_result (7/10)).details.severity = get_severity (7/10) ∧
    (assemble_result (7/10)).recommendations =
      get_recommendations (7/10) (get_severity (7/10)) :=
  C5_pure_deterministic (7/10) (7/10) rfl

/-- C8: severity is monotonic in the tier order None < Mild < Moderate <
Severe, every probability maps to one of the four tiers, and 0.95, 0.85,
0.6, 0.3 map to Severe, Moderate, Mild, None respectively. -/
theorem C8_severity_monotone_exhaustive (p1 p2 : ℚ) :
    (p1 ≤ p2 → severity_rank (get_severity p1) ≤ severity_rank (get_severity p2)) ∧
    (get_severity p1 = none ∨ get_severity p1 = some "Mild" ∨
      get_severity p1 = some "Moderate" ∨ get_severity p1 = some "Severe") ∧
    get_severity (19/20) = some "Severe" ∧
    get_severity (17/20) = some "Moderate" ∧
    get_severity (3/5) = some "Mild" ∧
    get_severity (3/10) = none := by
  refine ⟨fun h => ?_, ?_, ?_, ?_, ?_, ?_⟩
  · unfold get_severity
    split_ifs <;> simp [severity_rank] <;> linarith
  · unfold get_severity
    split_ifs <;> simp
  all_goals norm_num [get_severity]

/-- C10: the recommendation generator branches on confidence before the
severity argument: confidence ≤ 0.5 yields the 4-item normal-monitoring
list whatever the severity, and confidence > 0.5 with severity neither
"Severe" nor "Moderate" (including None) yields the 6-item Mild-branch
list. -/
theorem C10_confidence_branch_first (c : ℚ) (s : Option String) :
    (c ≤ 1/2 → get_recommendations c s =
      ["Continue normal health monitoring",
       "Maintain good respiratory hygiene",
       "Stay current with vaccinations",
       "Follow up if new symptoms develop"]) ∧
    (1/2 < c → s ≠ some "Severe" → s ≠ some "Moderate" →
      get_recommendations c s =
        ["Schedule medical evaluation",
         "Consult with a healthcare provider",
         "Monitor breathing and oxygen levels",
         "Rest and maintain good hydration",
         "Follow up with chest X-rays as advised",
         "Complete prescribed medications if given"]) := by
  constructor
  · intro h
    unfold get_recommendations
    rw [if_neg (not_lt.mpr h)]
  · intro h h1 h2
    unfold get_recommendations
    rw [if_pos h, if_neg h1, if_neg h2]; rfl

lemma predict_body_error_500 (env : Env) (m : Model) (image : String) :
    ∀ s d, predict_body env m image = HttpResponse.error s d → s = 500 := by
  intro s d h
  unfold predict_body at h
  split at h
  · cases h
  · injection h with h1 h2
    exact h1.symm

/-- C6: every error while handling a /predict request — decode failure,
model file absent after the lazy reload attempt, or an exception in the
forward pass — surfaces as an HTTP 500 response with a detail message,
never as an unhandled crash, and the only retry is the single lazy
model-load attempt taken exactly when the global model is unset. -/
theorem C6_errors_are_http_500 (env : Env) (model : Option Model) (image : String) :
    (∀ status detail,
      (predict env model image).1 = HttpResponse.error status detail →
        status = 500) ∧
    (model.isSome = true → (predict env model image).2 = model) ∧
    (model = none →
      (predict env model image).2 =
        if env.fileExists then some env.diskModel else none) := by
  refine ⟨?_, ?_, ?_⟩
  · intro s d h
    cases model with
    | some m =>
      simp only [predict] at h
      exact predict_body_error_500 env m image s d h
    | none =>
      unfold predict load_model at h
      cases hfe : env.fileExists <;> simp [hfe] at h
      · exact h.1.symm
      · exact predict_body_error_500 env env.diskModel image s d h
  · intro hsome
    cases model with
    | some m => rfl
    | none => simp at hsome
  · intro hnone
    subst hnone
    unfold predict load_model
    cases hfe : env.fileExists <;> simp [hfe]

/-- C7: the load state is the two-valued presence of the global model,
with the single unloaded-to-loaded transition taken by a successful lazy
load attempted on every /predict request while unloaded; /health reports
model_loaded false before any load has succeeded and true after any
successful /predict call. -/
theorem C7_two_state_lazy_load (env : Env) (st : Option Model) (image : String) :
    (health_check none).model_loaded = false ∧
    (health_check st).model_loaded = st.isSome ∧
    (st.isSome = true → (predict env st image).2 = st) ∧
    (∀ r, (predict env st image).1 = HttpResponse.ok r →
      (health_check (predict env st image).2).model_loaded = true) ∧
    (st = none → env.fileExists = true →
      (predict env st image).2 = some env.diskModel) ∧
    (st = none →
      (predict env st image).2 = none ∨
      (predict env st image).2 = some env.diskModel) := by
  refine ⟨rfl, rfl, ?_, ?_, ?_, ?_⟩
  · intro hsome
    cases st with
    | some m => rfl
    | none => simp at hsome
  · intro r h
    cases st with
    | some m => rfl
    | none =>
      unfold predict load_model at h ⊢
      cases hfe : env.fileExists <;> simp [hfe, health_check] at h ⊢
  · intro hnone hfe
    subst hnone
    unfold predict load_model
    simp [hfe]
  · intro hnone
    subst hnone
    unfold predict load_model
    cases hfe : env.fileExists <;> simp [hfe]

lemma cli_run_cases (env : PredictCli.CliEnv) :
    (∃ e, PredictCli.cli_run env = Except.error e) ∨
    (∃ p, PredictCli.cli_run env =
        Except.ok (p, if p > 1/2 then true else false) ∧
      ∃ m x probs, env.load_model = Except.ok m ∧
        env.load_input = Except.ok x ∧
        m.predict_proba (PredictCli.reshape_row x) = Except.ok probs ∧
        PredictCli.proba_index probs = Except.ok p) := by
  cases hm : env.load_model with
  | error e =>
    exact Or.inl ⟨e, by simp [PredictCli.cli_run, hm]⟩
  | ok m =>
    cases hx : env.load_input with
    | error e =>
      exact Or.inl ⟨e, by simp [PredictCli.cli_run, hm, hx]⟩
    | ok x =>
      cases hp : m.predict_proba (PredictCli.reshape_row x) with
      | error e =>
        exact Or.inl ⟨e, by simp [PredictCli.cli_run, hm, hx, hp]⟩
      | ok probs =>
        cases hi : PredictCli.proba_index probs with
        | error e =>
          exact Or.inl ⟨e, by simp [PredictCli.cli_run, hm, hx, hp, hi]⟩
        | ok p =>
          exact Or.inr ⟨p, by simp [PredictCli.cli_run, hm, hx, hp, hi],
            m, x, probs, rfl, rfl, hp, hi⟩

/-- C9: on success the CLI tool prints the JSON object holding the loaded
model's class-1 probability and the boolean prediction (probability >
0.5) and exits 0; on any failure it prints a JSON error object and exits
1; the exit code is always 0 or 1 and there is no retry path. -/
theorem C9_cli_output_and_exit (env : PredictCli.CliEnv) :
    ((PredictCli.cli_main env).2 = 0 ∨ (PredictCli.cli_main env).2 = 1) ∧
    (∀ p b, (PredictCli.cli_main env).1 = PredictCli.CliOutput.success p b →
      (PredictCli.cli_main env).2 = 0 ∧
      b = (if p > 1/2 then true else false) ∧
      ∃ m x probs, env.load_model = Except.ok m ∧
        env.load_input = Except.ok x ∧
        m.predict_proba (PredictCli.reshape_row x) = Except.ok probs ∧
        PredictCli.proba_index probs = Except.ok p) ∧
    (∀ e, (PredictCli.cli_main env).1 = PredictCli.CliOutput.failure e →
      (PredictCli.cli_main env).2 = 1) := by
  rcases cli_run_cases env with ⟨e, he⟩ | ⟨p, hrun, m, x, probs, h1, h2, h3, h4⟩
  · have hmain : PredictCli.cli_main env = (PredictCli.CliOutput.failure e, 1) := by
      simp [PredictCli.cli_main, he]
    refine ⟨Or.inr ?_, ?_, ?_⟩
    · rw [hmain]
    · intro q b h
      simp [hmain] at h
    · intro e2 h
      rw [hmain]
  · have hmain : PredictCli.cli_main env =
        (PredictCli.CliOutput.success p (if p > 1/2 then true else false), 0) := by
      simp [PredictCli.cli_main, hrun]
    refine ⟨Or.inl ?_, ?_, ?_⟩
    · rw [hmain]
    · intro q b h
      rw [hmain] at h
      have h5 : PredictCli.CliOutput.success p (if p > 1/2 then true else false) =
          PredictCli.CliOutput.success q b := h
      injection h5 with h6 h7
      subst h6; subst h7
      exact ⟨by rw [hmain], rfl, m, x, probs, h1, h2, h3, h4⟩
    · intro e2 h
      rw [hmain] at h
      have h5 : PredictCli.CliOutput.success p (if p > 1/2 then true else false) =
          PredictCli.CliOutput.failure e2 := h
      cases h5

lemma toRGBpx_length (c : List Nat) : (toRGBpx c).length = 3 := by
  rcases c with _ | ⟨a, _ | ⟨b, _ | ⟨d, rest⟩⟩⟩ <;> rfl

lemma toRGBpx_le (c : List Nat) (hv : ∀ v ∈ c, v ≤ 255) :
    ∀ v ∈ toRGBpx c, v ≤ 255 := by
  intro v hm
  rcases c with _ | ⟨a, _ | ⟨b, _ | ⟨d, rest⟩⟩⟩ <;> simp [toRGBpx] at hm
  · omega
  · have := hv a (by simp)
    omega
  · have := hv a (by simp)
    omega
  · have ha := hv a (by simp)
    have hb := hv b (by simp)
    have hd := hv d (by simp)
    rcases hm with h | h | h <;> omega

lemma rgb_pixels (img : PILImage) (h : img.wf) :
    (∀ x y,
      (((if img.mode ≠ "RGB" then convert_to_rgb img else img)).px x y).length = 3) ∧
    (∀ x y, ∀ v ∈ ((if img.mode ≠ "RGB" then convert_to_rgb img else img)).px x y,
      v ≤ 255) := by
  by_cases hm : img.mode = "RGB"
  · rw [if_neg (not_not_intro hm)]
    exact ⟨h.2 hm, h.1⟩
  · rw [if_pos hm]
    refine ⟨fun x y => toRGBpx_length _, fun x y => toRGBpx_le _ (h.1 x y)⟩

lemma pipeline_contract (img : PILImage) (h : img.wf) :
    tensor_shape_ok (expand_dims (to_array
      (((if img.mode ≠ "RGB" then convert_to_rgb img else img)).resize 224 224))) ∧
    tensor_unit_interval (expand_dims (to_array
      (((if img.mode ≠ "RGB" then convert_to_rgb img else img)).resize 224 224))) := by
  obtain ⟨hl, hb⟩ := rgb_pixels img h
  set g := if img.mode ≠ "RGB" then convert_to_rgb img else img with hg
  constructor
  · refine ⟨rfl, ?_⟩
    intro b hbm
    simp only [expand_dims, List.mem_singleton] at hbm
    subst hbm
    refine ⟨by simp [to_array, PILImage.resize], ?_⟩
    intro r hr
    simp only [to_array, PILImage.resize, List.mem_map, List.mem_range] at hr
    obtain ⟨y, hy, rfl⟩ := hr
    refine ⟨by simp, ?_⟩
    intro p hp
    simp only [List.mem_map, List.mem_range] at hp
    obtain ⟨x, hx, rfl⟩ := hp
    rw [List.length_map]
    exact hl _ _
  · intro b hbm
    simp only [expand_dims, List.mem_singleton] at hbm
    subst hbm
    intro r hr
    simp only [to_array, PILImage.resize, List.mem_map, List.mem_range] at hr
    obtain ⟨y, hy, rfl⟩ := hr
    intro p hp
    simp only [List.mem_map, List.mem_range] at hp
    obtain ⟨x, hx, rfl⟩ := hp
    intro v hv
    simp only [List.mem_map] at hv
    obtain ⟨w, hw, rfl⟩ := hv
    have hw255 : w ≤ 255 := hb _ _ w hw
    constructor
    · positivity
    · rw [div_le_one (by norm_num)]
      exact_mod_cast hw255

lemma preprocess_image_ok_inv (image_open : List Nat → Except String PILImage)
    (image_data : String) (t : List (List (List (List ℚ))))
    (h : preprocess_image image_open image_data = Except.ok t) :
    ∃ bytes img, image_open bytes = Except.ok img ∧
      t = expand_dims (to_array
        ((if img.mode ≠ "RGB" then convert_to_rgb img else img).resize 224 224)) := by
  unfold preprocess_image at h
  split at h
  · cases h
  · split at h
    · cases h
    · exact ⟨_, _, by assumption, (Except.ok.inj h).symm⟩

/-- C4: for every valid decodable image of any source resolution and
channel count, the normalizer — strip a "base64,"-delimited prefix if
present, base64-decode, decode the raster image, convert to 3-channel RGB
if needed, resize to 224×224, divide every channel value by 255, prepend
a batch dimension of size 1 — yields on success a tensor of shape
(1,224,224,3) with every value in [0,1]. -/
theorem C4_preprocess_contract (image_open : List Nat → Except String PILImage)
    (image_data : String)
    (h_open : ∀ bs img, image_open bs = Except.ok img → img.wf) :
    match preprocess_image image_open image_data with
    | Except.ok t => tensor_shape_ok t ∧ tensor_unit_interval t
    | Except.error _ => True := by
  cases hres : preprocess_image image_open image_data with
  | error e => trivial
  | ok t =>
    obtain ⟨bytes, img, hopen, rfl⟩ :=
      preprocess_image_ok_inv image_open image_data t hres
    exact pipeline_contract img (h_open bytes img hopen)

/-- A concrete 1×1 RGB image for the C4 witness. -/
def sample_image : PILImage :=
  { width := 1, height := 1, mode := "RGB", px := fun _ _ => [7, 8, 9] }

/-- A raster decoder that decodes any byte string to `sample_image`. -/
def sample_open : List Nat → Except String PILImage :=
  fun _ => Except.ok sample_image

lemma sample_image_wf : sample_image.wf := by
  constructor
  · intro x y v hv
    simp [sample_image] at hv
    rcases hv with h | h | h <;> omega
  · intro _ x y
    rfl

/-- C4 witness: the preprocessing contract instantiated at a concrete
decoder and a concrete base64 payload. -/
theorem C4_preprocess_contract_witness :
    match preprocess_image sample_open "QUJD" with
    | Except.ok t => tensor_shape_ok t ∧ tensor_unit_interval t
    | Except.error _ => True :=
  C4_preprocess_contract sample_open "QUJD"
    (fun bs img h => (Except.ok.inj h) ▸ sample_image_wf)
